import Mathlib

/-!
Verification of the HTMLyoutubeMusic synchronization / playlist core

Shallow embedding of the playlist state machine of `overlay.js` (the
Controller page script) and of the WebSocket Display overlay script
(the third segment of `overlay.css`, which holds the display-side
JavaScript), together with proofs of the specification's claims.

JavaScript conventions used throughout the embedding:
* machine numbers that are always small integers are modelled as `Int`
  (the JavaScript `%` operator on integers is truncated remainder,
  modelled by `Int.tmod`);
* `undefined` / `null` fields are modelled by `Option`;
* JavaScript truthiness of a string is `s ≠ ""`;
* an uncaught exception of a function is modelled by the `none` value
  of an `Option` result.
-/

namespace HTMLyoutubeMusic

/-- A playlist entry as pushed by `addToPlaylist` in `overlay.js`:
`{ id: videoId, title: title, author: author }`. -/
structure Track where
  id : String
  title : String
  author : String
deriving Repr, DecidableEq

/-- The Controller's module-level mutable state in `overlay.js`:
`playlist`, `currentIndex` and `currentVideoId`. -/
structure CtrlState where
  playlist : List Track
  currentIndex : Int
  currentVideoId : String
deriving Repr, DecidableEq

/-- Initial values of the Controller globals
(`playlist = []`, `currentIndex = 0`, `currentVideoId = ''`). -/
def initCtrl : CtrlState := { playlist := [], currentIndex := 0, currentVideoId := "" }

/-- JavaScript `%` on integers (truncated remainder, sign of the dividend). -/
def jsRem (a b : Int) : Int := Int.tmod a b

/-- The function `loadVideo(index)` of `overlay.js`: if `index >= 0 && index < playlist.length`,
set `currentIndex` and `currentVideoId` and issue `loadVideoById` to the playback
capability (the issued video id is returned as the second component);
otherwise a no-op. -/
def loadVideo (index : Int) (s : CtrlState) : CtrlState × Option String :=
  if 0 ≤ index ∧ index < (s.playlist.length : Int) then
    let vid := ((s.playlist.get? index.toNat).map Track.id).getD ""
    ({ s with currentIndex := index, currentVideoId := vid }, some vid)
  else
    (s, none)

/-- The function `playNextVideo()` of `overlay.js`: no-op on an empty playlist, else
`currentIndex = (currentIndex + 1) % playlist.length` followed by
`loadVideo(currentIndex)`. -/
def playNextVideo (s : CtrlState) : CtrlState × Option String :=
  if s.playlist.length = 0 then (s, none)
  else
    let i := jsRem (s.currentIndex + 1) (s.playlist.length : Int)
    loadVideo i { s with currentIndex := i }

/-- The function `playPreviousVideo()` of `overlay.js`: no-op on an empty playlist, else
`currentIndex = (currentIndex - 1 + playlist.length) % playlist.length`
followed by `loadVideo(currentIndex)`. -/
def playPreviousVideo (s : CtrlState) : CtrlState × Option String :=
  if s.playlist.length = 0 then (s, none)
  else
    let i := jsRem (s.currentIndex - 1 + (s.playlist.length : Int)) (s.playlist.length : Int)
    loadVideo i { s with currentIndex := i }

/-- The function `addToPlaylist(videoId, title, author)` of `overlay.js`:
`playlist.push({id, title, author})` (plus UI/persistence side effects). -/
def addToPlaylist (videoId title author : String) (s : CtrlState) : CtrlState :=
  { s with playlist := s.playlist ++ [{ id := videoId, title := title, author := author }] }

/-! ## The `extractVideoId` regular expression

`overlay.js` resolves URLs with
`/^.*(youtu.be\/|v\/|u\/\w\/|embed\/|watch\?v=|&v=)([^#&?]*).*/`.
The JavaScript backtracking engine matches the greedy leading `^.*`
against the longest possible prefix, so the regex succeeds at the
RIGHTMOST position where one of the six alternatives matches (the
leading `.*` cannot cross a line terminator); at a fixed position the
alternatives are tried in source order; group 2 is then the maximal
run of characters other than `#`, `&`, `?`. -/

/-- JavaScript `.` (without the `s` flag): any character except a line
terminator. -/
def jsDot (c : Char) : Bool := ¬ (c = '\n' ∨ c = '\r')

/-- JavaScript `\w`: `[A-Za-z0-9_]`. -/
def wordChar (c : Char) : Bool := c.isAlphanum ∨ c = '_'

/-- A single literal character of the pattern. -/
def lit (c : Char) : Char → Bool := fun x => x = c

/-- The six marker alternatives of the regex, in source order, as lists of
character predicates (the `.` of `youtu.be` is a wildcard, the `\w` of
`u\/\w\/` is a word character). -/
def markerPats : List (List (Char → Bool)) :=
  [ [lit 'y', lit 'o', lit 'u', lit 't', lit 'u', jsDot, lit 'b', lit 'e', lit '/'],
    [lit 'v', lit '/'],
    [lit 'u', lit '/', wordChar, lit '/'],
    [lit 'e', lit 'm', lit 'b', lit 'e', lit 'd', lit '/'],
    [lit 'w', lit 'a', lit 't', lit 'c', lit 'h', lit '?', lit 'v', lit '='],
    [lit '&', lit 'v', lit '='] ]

/-- Does a pattern (list of character predicates) match at the head of `l`? -/
def matchesAt : List (Char → Bool) → List Char → Bool
  | [], _ => true
  | p :: ps, c :: cs => p c && matchesAt ps cs
  | _ :: _, [] => false

/-- The first alternative (in source order) matching at the head of `l`,
returning its length. -/
def markerAt (l : List Char) : Option Nat :=
  (markerPats.find? (fun pat => matchesAt pat l)).map List.length

/-- The rightmost position reachable by the greedy `^.*` where a marker
alternative matches; returns the characters that follow the marker.
Positions beyond a line terminator are unreachable by `.*`. -/
def findLastMarker : List Char → Option (List Char)
  | [] => none
  | c :: cs =>
    let here := (markerAt (c :: cs)).map (fun n => (c :: cs).drop n)
    if jsDot c then
      match findLastMarker cs with
      | some rest => some rest
      | none => here
    else here

/-- Group 2 of the regex: the greedy `[^#&?]*` run. -/
def group2 (rest : List Char) : List Char :=
  rest.takeWhile (fun c => ¬ (c = '#' ∨ c = '&' ∨ c = '?'))

/-- The function `extractVideoId(url)` of `overlay.js`: if the regex matches and group 2
has exactly 11 characters, return group 2; else if the whole input has
exactly 11 characters, return it unchanged; else `null`. -/
def extractVideoId (url : String) : Option String :=
  match (findLastMarker url.toList).map group2 with
  | some g2 =>
    if g2.length = 11 then some (String.mk g2)
    else if url.length = 11 then some url else none
  | none =>
    if url.length = 11 then some url else none

/-- JavaScript whitespace stripped by `String.prototype.trim` (the ASCII
part; the inputs of interest contain no exotic Unicode spaces). -/
def jsWs (c : Char) : Bool :=
  c = ' ' ∨ c = '\t' ∨ c = '\n' ∨ c = '\r' ∨ c = '\x0b' ∨ c = '\x0c'

/-- JavaScript `s.trim()`: strip whitespace from both ends. -/
def jsTrim (s : String) : String :=
  String.mk (((s.toList.dropWhile jsWs).reverse.dropWhile jsWs).reverse)

/-- The function `addVideoToPlaylist()` of `overlay.js`, acting on the trimmed content of
the `video-url` input field: empty input is a no-op; a failed resolution
(`extractVideoId` returns `null`) alerts and leaves the playlist unchanged;
otherwise the id is appended with placeholder metadata, and if the playlist
now has exactly one entry, `loadVideo(0)` is issued (second component: the
video id issued to the capability, if any). -/
def addVideoToPlaylist (input : String) (s : CtrlState) : CtrlState × Option String :=
  let url := jsTrim input
  if url = "" then (s, none)
  else
    match extractVideoId url with
    | none => (s, none)
    | some vid =>
      let s1 := addToPlaylist vid "Loading..." "Loading..." s
      if s1.playlist.length = 1 then loadVideo 0 s1 else (s1, none)

/-- The function `addVideoToPlaylistById(videoId)` of `overlay.js` (autostart path):
append with placeholder metadata, then always `loadVideo(0)`. -/
def addVideoToPlaylistById (videoId : String) (s : CtrlState) : CtrlState × Option String :=
  loadVideo 0 (addToPlaylist videoId "Loading..." "Loading..." s)

/-- The lifecycle notifications of the playback capability that
`onPlayerStateChange` dispatches on (`YT.PlayerState.PLAYING` / `ENDED`;
other states fall through both `if`s). -/
inductive PlayerEvent where
  | playing
  | ended
  | other
deriving Repr, DecidableEq

/-- The function `onPlayerStateChange(event)` of `overlay.js`, restricted to its effect on
the Controller state and on the load issued to the capability: `PLAYING`
starts the marquee/metadata polling (a timer, no state change and no load);
`ENDED` calls `playNextVideo()`. -/
def onPlayerStateChange (e : PlayerEvent) (s : CtrlState) : CtrlState × Option String :=
  match e with
  | .ended => playNextVideo s
  | _ => (s, none)

/-! ## Volume handling (the `volume-slider` input handler) -/

/-- The mute-related state of the playback capability plus the persisted /
echoed volume value (`localStorage['youtubePlayerVolume']` and the
`volume-value` label, which always receive the same slider value). -/
structure VolState where
  storedVolume : Int
  muted : Bool
deriving Repr, DecidableEq

/-- Modelled from the spec: the `volume-slider` element itself lives in
`index.html`, which is not part of the sources; per §4.2/§6 it is a range
input over `[0,100]`, so any value `v` poked into it is clamped to
`clamp(v, 0, 100)` before the `input` handler reads `this.value`. -/
def sliderClamp (v : Int) : Int := max 0 (min v 100)

/-- The `volume-slider` `input` handler of `overlay.js` (lines 110–124):
reads the (slider-clamped) value, echoes it to the label, forwards it to
`player.setVolume`, persists it, and then mutes the capability iff the
value is `0`, un-muting when a nonzero value arrives while muted. -/
def setVolume (v : Int) (p : VolState) : VolState :=
  let vol := sliderClamp v
  let p1 : VolState := { p with storedVolume := vol }
  if vol = 0 then { p1 with muted := true }
  else if p1.muted then { p1 with muted := false }
  else p1

/-! ## Reconnection backoff (`socket.onclose` of the Display script) -/

/-- What one unclean close does: the delay passed to `setTimeout`
(milliseconds; `Math.min(1000 * Math.pow(1.5, reconnectAttempts), 30000)`
is exact in binary floating point for every reachable attempt count, so a
rational models it faithfully), the new `reconnectAttempts` counter, and
whether `autoReconnectWebSocket` (port auto-detection) was invoked. -/
structure CloseResult where
  delay : ℚ
  attempts : Nat
  altDiscovery : Bool
deriving Repr, DecidableEq

/-- The backoff formula of `socket.onclose`. -/
def backoffDelay (attempts : Nat) : ℚ := min (1000 * (3 / 2 : ℚ) ^ attempts) 30000

/-- The function `socket.onclose` of the Display script on an unclean close
(`event.wasClean` false): schedule `connectWebSocket` after
`backoffDelay attempts`, increment the counter, and if it then reaches 3,
invoke the alternate port auto-detection and reset the counter to 0. -/
def onUncleanClose (attempts : Nat) : CloseResult :=
  let d := backoffDelay attempts
  let a := attempts + 1
  if 3 ≤ a then { delay := d, attempts := 0, altDiscovery := true }
  else { delay := d, attempts := a, altDiscovery := false }

/-! ## A model of `JSON.parse`

`loadPlaylistFromStorage` feeds the raw persisted string straight into
`JSON.parse` with no `try`/`catch`, so the embedding needs an executable
model of JSON parsing that can fail.  Number tokens are kept as their
lexemes (the claims never compute with them), string escapes follow the
JSON grammar (`\uXXXX` is mapped through `Char.ofNat`), and a `none`
result of `jsonParse` models the `SyntaxError` that `JSON.parse` throws. -/

/-- JSON values. -/
inductive Json where
  | null : Json
  | bool : Bool → Json
  | num : String → Json
  | str : String → Json
  | arr : List Json → Json
  | obj : List (String × Json) → Json

/-- JSON insignificant whitespace: space, tab, line feed, carriage return. -/
def skipWs (l : List Char) : List Char :=
  l.dropWhile (fun c => c = ' ' ∨ c = '\t' ∨ c = '\n' ∨ c = '\r')

/-- Value of one hexadecimal digit. -/
def hexVal (c : Char) : Option Nat :=
  if c.isDigit then some (c.toNat - '0'.toNat)
  else if 'a' ≤ c ∧ c ≤ 'f' then some (c.toNat - 'a'.toNat + 10)
  else if 'A' ≤ c ∧ c ≤ 'F' then some (c.toNat - 'A'.toNat + 10)
  else none

/-- Lex the remainder of a JSON string literal (the opening quote already
consumed), with `acc` holding the characters read so far in reverse. -/
def lexStrAux : List Char → List Char → Option (String × List Char)
  | acc, '"' :: rest => some (String.mk acc.reverse, rest)
  | acc, '\\' :: c :: rest =>
    if c = '"' then lexStrAux ('"' :: acc) rest
    else if c = '\\' then lexStrAux ('\\' :: acc) rest
    else if c = '/' then lexStrAux ('/' :: acc) rest
    else if c = 'b' then lexStrAux (Char.ofNat 8 :: acc) rest
    else if c = 'f' then lexStrAux (Char.ofNat 12 :: acc) rest
    else if c = 'n' then lexStrAux ('\n' :: acc) rest
    else if c = 'r' then lexStrAux ('\r' :: acc) rest
    else if c = 't' then lexStrAux ('\t' :: acc) rest
    else if c = 'u' then
      match rest with
      | h1 :: h2 :: h3 :: h4 :: rest2 =>
        match hexVal h1, hexVal h2, hexVal h3, hexVal h4 with
        | some a, some b, some c2, some d =>
          lexStrAux (Char.ofNat (((a * 16 + b) * 16 + c2) * 16 + d) :: acc) rest2
        | _, _, _, _ => none
      | _ => none
    else none
  | acc, c :: rest => if c.toNat < 32 then none else lexStrAux (c :: acc) rest
  | _, [] => none

/-- Lex a JSON string literal body starting right after the opening quote. -/
def lexStr (l : List Char) : Option (String × List Char) := lexStrAux [] l

/-- Lex the optional exponent part of a JSON number, `acc` holding the
lexeme so far. -/
def lexExp (acc : List Char) (l : List Char) : Option (List Char × List Char) :=
  match l with
  | c :: r =>
    if c = 'e' ∨ c = 'E' then
      let sr : List Char × List Char :=
        match r with
        | s :: r2 => if s = '+' ∨ s = '-' then ([s], r2) else ([], r)
        | [] => ([], r)
      let ds := sr.2.takeWhile Char.isDigit
      if ds = [] then none
      else some (acc ++ [c] ++ sr.1 ++ ds, sr.2.dropWhile Char.isDigit)
    else some (acc, l)
  | [] => some (acc, l)

/-- Lex the optional fraction part of a JSON number, then the exponent. -/
def lexFrac (acc : List Char) (l : List Char) : Option (List Char × List Char) :=
  match l with
  | '.' :: r =>
    let ds := r.takeWhile Char.isDigit
    if ds = [] then none else lexExp (acc ++ '.' :: ds) (r.dropWhile Char.isDigit)
  | _ => lexExp acc l

/-- Lex a JSON number token (`-? (0 | [1-9][0-9]*) frac? exp?`),
returning its lexeme. -/
def lexNumber (l : List Char) : Option (List Char × List Char) :=
  let nl : List Char × List Char :=
    match l with
    | '-' :: r => (['-'], r)
    | _ => ([], l)
  match nl.2 with
  | '0' :: r => lexFrac (nl.1 ++ ['0']) r
  | c :: r =>
    if c.isDigit then
      lexFrac (nl.1 ++ c :: r.takeWhile Char.isDigit) (r.dropWhile Char.isDigit)
    else none
  | [] => none

mutual

/-- Parse one JSON value (fueled recursion; `parseJsonWith` supplies enough
fuel for any input of the given length, so the fuel never runs out on a
genuinely parseable input). -/
def parseVal (fuel : Nat) (l : List Char) : Option (Json × List Char) :=
  match fuel with
  | 0 => none
  | fuel + 1 =>
    match skipWs l with
    | 'n' :: 'u' :: 'l' :: 'l' :: rest => some (.null, rest)
    | 't' :: 'r' :: 'u' :: 'e' :: rest => some (.bool true, rest)
    | 'f' :: 'a' :: 'l' :: 's' :: 'e' :: rest => some (.bool false, rest)
    | '"' :: rest => (lexStr rest).map (fun p => (.str p.1, p.2))
    | '[' :: rest => parseArr fuel (skipWs rest)
    | '{' :: rest => parseObj fuel (skipWs rest)
    | l2 => (lexNumber l2).map (fun p => (.num (String.mk p.1), p.2))

/-- Parse the inside of an array, right after `[` (whitespace skipped). -/
def parseArr (fuel : Nat) (l : List Char) : Option (Json × List Char) :=
  match fuel, l with
  | _, ']' :: rest => some (.arr [], rest)
  | 0, _ => none
  | fuel + 1, _ =>
    match parseVal fuel l with
    | none => none
    | some (v, rest) => parseArrTail fuel [v] (skipWs rest)

/-- Parse `, value`* `]`, with `acc` holding the elements read so far in
reverse. -/
def parseArrTail (fuel : Nat) (acc : List Json) (l : List Char) : Option (Json × List Char) :=
  match fuel, l with
  | _, ']' :: rest => some (.arr acc.reverse, rest)
  | 0, _ => none
  | fuel + 1, ',' :: rest =>
    match parseVal fuel rest with
    | none => none
    | some (v, rest2) => parseArrTail fuel (v :: acc) (skipWs rest2)
  | _, _ => none

/-- Parse the inside of an object, right after `{` (whitespace skipped). -/
def parseObj (fuel : Nat) (l : List Char) : Option (Json × List Char) :=
  match fuel, l with
  | _, '}' :: rest => some (.obj [], rest)
  | 0, _ => none
  | fuel + 1, _ =>
    match parseMember fuel l with
    | none => none
    | some (kv, rest) => parseObjTail fuel [kv] (skipWs rest)

/-- Parse one `"key" : value` member of an object. -/
def parseMember (fuel : Nat) (l : List Char) : Option ((String × Json) × List Char) :=
  match fuel, skipWs l with
  | 0, _ => none
  | fuel + 1, '"' :: rest =>
    match lexStr rest with
    | none => none
    | some (k, rest1) =>
      match skipWs rest1 with
      | ':' :: rest2 =>
        match parseVal fuel rest2 with
        | none => none
        | some (v, rest3) => some ((k, v), rest3)
      | _ => none
  | _, _ => none

/-- Parse `, member`* `}`, with `acc` holding the members read so far in
reverse. -/
def parseObjTail (fuel : Nat) (acc : List (String × Json)) (l : List Char) :
    Option (Json × List Char) :=
  match fuel, l with
  | _, '}' :: rest => some (.obj acc.reverse, rest)
  | 0, _ => none
  | fuel + 1, ',' :: rest =>
    match parseMember fuel rest with
    | none => none
    | some (kv, rest2) => parseObjTail fuel (kv :: acc) (skipWs rest2)
  | _, _ => none

end

/-- The function `JSON.parse(s)`: parse one value, demand only whitespace after it;
`none` models the thrown `SyntaxError`.  At most three fuel units are spent
per consumed character, so `3 * length + 4` fuel never runs dry. -/
def jsonParse (s : String) : Option Json :=
  match parseVal (3 * s.length + 4) s.toList with
  | some (v, rest) => if skipWs rest = [] then some v else none
  | none => none

/-! ## Persisted state and `loadPlaylistFromStorage` -/

/-- The local key-value store slice read by `loadPlaylistFromStorage`:
the keys `youtubePlaylist`, `currentIndex` and `youtubePlayerVolume`
(`localStorage.getItem` returns the stored string or `null`). -/
structure Storage where
  youtubePlaylist : Option String
  currentIndex : Option String
  youtubePlayerVolume : Option String
deriving Repr, DecidableEq

/-- JavaScript `parseInt(s)` (decimal): skip leading whitespace, optional
sign, then leading digits; `none` models `NaN` (no digits). -/
def jsParseInt (s : String) : Option Int :=
  let l := s.toList.dropWhile (fun c => c.isWhitespace)
  let sl : Int × List Char :=
    match l with
    | '-' :: r => (-1, r)
    | '+' :: r => (1, r)
    | _ => (1, l)
  let ds := sl.2.takeWhile Char.isDigit
  if ds = [] then none
  else some (sl.1 * ds.foldl (fun a c => a * 10 + ((c.toNat : Int) - ('0'.toNat : Int))) 0)

/-- The function `loadPlaylistFromStorage()` of `overlay.js` (lines 316–356), restricted
to its effect on the `playlist` and `currentIndex` globals (the volume
branch only touches the slider UI and the playback capability; the final
`loadVideo(currentIndex)` call re-assigns `currentIndex` to the same value
or is a no-op, and issues a capability load not tracked here).

A falsy stored string (`null` or `""`) leaves the globals at their prior
values `playlist0` / `currentIndex0`; otherwise the raw string goes
straight into `JSON.parse` with NO `try`/`catch` and NO shape validation:
the parsed value — whatever it is — becomes the playlist global, and the
cursor becomes `parseInt(savedIndex)` (or `0` on a falsy saved index).
`none` models the uncaught `SyntaxError` escaping the function; a `none`
cursor inside the result models `NaN`. -/
def loadPlaylistFromStorage (st : Storage) (playlist0 : Json) (currentIndex0 : Option Int) :
    Option (Json × Option Int) :=
  match st.youtubePlaylist with
  | none => some (playlist0, currentIndex0)
  | some sp =>
    if sp = "" then some (playlist0, currentIndex0)
    else
      match jsonParse sp with
      | none => none
      | some pl =>
        let ci : Option Int :=
          match st.currentIndex with
          | none => some 0
          | some si => if si = "" then some 0 else jsParseInt si
        some (pl, ci)

/-! ## The Display overlay (WebSocket script)

The display script keeps its own `playlist` / `currentIndex` replica and a
`song-info` text element, and dispatches inbound messages by duck typing in
`updateSongInfo`.  Optional wire fields are `Option`s; JavaScript string
truthiness is `s ≠ ""`; an array field is truthy whenever present (even
when empty). -/

/-- The `params` payload of a tagged `nowPlaying` command. -/
structure SnapshotParams where
  title : Option String
  author : Option String
  playlist : Option (List Track)
  currentIndex : Option Int
deriving Repr, DecidableEq

/-- An inbound wire message as the duck-typed dispatch of `updateSongInfo`
sees it: every field it probes, each possibly absent. -/
structure WireMsg where
  command : Option String
  params : Option SnapshotParams
  value : Option Int
  title : Option String
  author : Option String
  playlist : Option (List Track)
  currentIndex : Option Int
deriving Repr, DecidableEq

/-- JavaScript truthiness of a possibly-absent string field. -/
def truthyStr : Option String → Bool
  | some s => s ≠ ""
  | none => false

/-- The Display replica state touched by `updateSongInfo`: the `song-info`
text, the `playlist` / `currentIndex` replica, and the volume slider/label
value. -/
structure DispState where
  songInfo : String
  playlist : List Track
  currentIndex : Int
  volumeDisplay : Option Int
deriving Repr, DecidableEq

/-- The marquee text `updateSongInfo` renders:
`` `Now Playing: ${videoTitle} by ${author}` ``. -/
def nowPlayingText (t a : String) : String :=
  "Now Playing: " ++ t ++ " by " ++ a

/-- The guard of the tagged branch of `updateSongInfo`: the message must
have a truthy `command` and a `params` object, the command must be
`"nowPlaying"`, and `params.title` / `params.author` must be truthy;
only then is the snapshot taken from `params` (any other tagged message
falls through to the bare-shape branch). -/
def npParams (m : WireMsg) : Option SnapshotParams :=
  match m.params with
  | none => none
  | some p =>
    if truthyStr m.command ∧ m.command = some "nowPlaying"
        ∧ truthyStr p.title ∧ truthyStr p.author then
      some p
    else none

/-- The function `updateSongInfo(data)` of the Display script (the debug-panel appends
are excluded: they are not replica state): `pong` is ignored;
`volumeUpdate` with a defined `value` updates only the volume display; a
tagged `nowPlaying` with truthy title/author overwrites the marquee text
and, when `params.playlist` is present, the playlist replica (taking
`params.currentIndex` when defined, else keeping the old cursor); any
remaining message with truthy top-level `title`/`author` overwrites the
text and, when both `playlist` and `currentIndex` are present, the
replica. -/
def updateSongInfo (m : WireMsg) (s : DispState) : DispState :=
  if m.command = some "pong" then s
  else if m.command = some "volumeUpdate" ∧ m.value.isSome then
    { s with volumeDisplay := m.value }
  else
    match npParams m with
    | some p =>
      let s1 := { s with songInfo := nowPlayingText (p.title.getD "") (p.author.getD "") }
      match p.playlist with
      | some pl =>
        { s1 with playlist := pl, currentIndex := p.currentIndex.getD s1.currentIndex }
      | none => s1
    | none =>
      if truthyStr m.title ∧ truthyStr m.author then
        let s1 := { s with songInfo := nowPlayingText (m.title.getD "") (m.author.getD "") }
        if m.playlist.isSome ∧ m.currentIndex.isSome then
          { s1 with playlist := m.playlist.getD [], currentIndex := m.currentIndex.getD 0 }
        else s1
      else s

/-! ## Connection open and the one-shot song-info timer -/

/-- The literal the `onopen` handler writes into `song-info`, and that the
2-second timer compares against to decide whether a snapshot has been
rendered yet. -/
def connectedText : String := "Connected to music player..."

/-- The display-side connection state the `onopen` handler and the 2-second
timer touch: the replica plus whether the socket is open
(`socket.readyState === WebSocket.OPEN`). -/
structure ConnState where
  disp : DispState
  socketOpen : Bool
deriving Repr, DecidableEq

/-- The function `socket.onopen` of the Display script: set the `song-info` text to the
connected literal, reset `reconnectAttempts` to 0 (not tracked here; see
`onUncleanClose`), send one `requestCurrentSongInfo`, and arm ONE one-shot
2-second timer.  Returns the new state and the list of commands sent. -/
def onSocketOpen (c : ConnState) : ConnState × List String :=
  ({ disp := { c.disp with songInfo := connectedText }, socketOpen := true },
   ["requestCurrentSongInfo"])

/-- The one-shot 2-second timer callback armed by `onSocketOpen`: if the
`song-info` text still equals the connected literal (no snapshot rendered)
and the socket is open, re-send `requestCurrentSongInfo`; returns the list
of commands sent. -/
def songInfoTimer (c : ConnState) : List String :=
  if c.disp.songInfo = connectedText ∧ c.socketOpen then
    ["requestCurrentSongInfo"]
  else []

/-- Does `updateSongInfo` render a snapshot (overwrite the marquee text)
for this message?  Exactly the messages that are not `pong`, not a
`volumeUpdate` with a value, and reach one of the two text-overwriting
branches. -/
def rendersSnapshot (m : WireMsg) : Bool :=
  ¬ (m.command = some "pong")
    ∧ ¬ (m.command = some "volumeUpdate" ∧ m.value.isSome)
    ∧ ((npParams m).isSome ∨ (truthyStr m.title ∧ truthyStr m.author))

/-- Processing a list of inbound messages in order (`socket.onmessage`
feeding `updateSongInfo`). -/
def processMsgs (ms : List WireMsg) (s : DispState) : DispState :=
  ms.foldl (fun s m => updateSongInfo m s) s

/-! ## Theorems -/

/-- C4: for every volume `v` poked at the slider, the stored/echoed volume
equals `clamp(v, 0, 100)`; setting exactly 0 mutes the player, and setting
any `v > 0` while muted un-mutes it. -/
theorem c4_setVolume_clamp_mute (v : Int) (p : VolState) :
    (setVolume v p).storedVolume = max 0 (min v 100) ∧
    (v = 0 → (setVolume v p).muted = true) ∧
    (0 < v → p.muted = true → (setVolume v p).muted = false) := by
  unfold setVolume sliderClamp
  refine ⟨?_, ?_, ?_⟩
  · dsimp only
    split
    · rfl
    · split <;> rfl
  · intro hv
    subst hv
    norm_num
  · intro hv hm
    have hz : ¬ (max 0 (min v 100) = 0) := by
      have : (1 : Int) ≤ min v 100 := by omega
      omega
    simp only [hz, if_false, hm, if_true]

/-- C4 witness: concrete volumes 0 (mutes), 5 while muted (un-mutes), and
250 (stored as the clamp 100). -/
theorem c4_setVolume_clamp_mute_witness :
    (setVolume 0 ⟨50, false⟩).muted = true ∧
    (setVolume 5 ⟨0, true⟩).muted = false ∧
    (setVolume 250 ⟨0, false⟩).storedVolume = max 0 (min 250 100) :=
  ⟨(c4_setVolume_clamp_mute 0 ⟨50, false⟩).2.1 rfl,
   (c4_setVolume_clamp_mute 5 ⟨0, true⟩).2.2 (by norm_num) rfl,
   (c4_setVolume_clamp_mute 250 ⟨0, false⟩).1⟩

/-- C5: consecutive unclean closes starting at `reconnectAttempts = 0`
schedule reconnects after 1000, 1500 and 2250 milliseconds (each delay is
`min(1000 * 1.5^attempts, 30000)`, so never above the 30000 cap); the first
two closes do not invoke the alternate discovery, the third invokes the
port auto-detection and resets the counter to 0. -/
theorem c5_backoff_sequence :
    (onUncleanClose 0).delay = 1000 ∧
    (onUncleanClose 0).altDiscovery = false ∧
    (onUncleanClose (onUncleanClose 0).attempts).delay = 1500 ∧
    (onUncleanClose (onUncleanClose 0).attempts).altDiscovery = false ∧
    (onUncleanClose (onUncleanClose (onUncleanClose 0).attempts).attempts).delay = 2250 ∧
    (onUncleanClose (onUncleanClose (onUncleanClose 0).attempts).attempts).altDiscovery = true ∧
    (onUncleanClose (onUncleanClose (onUncleanClose 0).attempts).attempts).attempts = 0 ∧
    (∀ a : Nat, (onUncleanClose a).delay = min (1000 * (3 / 2 : ℚ) ^ a) 30000 ∧
      (onUncleanClose a).delay ≤ 30000) := by
  refine ⟨by norm_num [onUncleanClose, backoffDelay],
          by norm_num [onUncleanClose, backoffDelay],
          by norm_num [onUncleanClose, backoffDelay],
          by norm_num [onUncleanClose, backoffDelay],
          by norm_num [onUncleanClose, backoffDelay],
          by norm_num [onUncleanClose, backoffDelay],
          by norm_num [onUncleanClose, backoffDelay],
          fun a => ⟨?_, ?_⟩⟩
  · unfold onUncleanClose backoffDelay
    dsimp only
    split <;> rfl
  · have h : (onUncleanClose a).delay = backoffDelay a := by
      unfold onUncleanClose
      dsimp only
      split <;> rfl
    rw [h]
    exact min_le_right _ _

/-- C1 counterexample: with the malformed persisted record `"{"` (a
truncated JSON object), `restore()` does NOT yield an empty playlist and
cursor 0 — the `JSON.parse` error escapes `loadPlaylistFromStorage`
uncaught (modelled by the `none` result), refuting "never raises". -/
theorem c1_restore_raises_counterexample :
    loadPlaylistFromStorage ⟨some "\x7b", some "0", none⟩ (Json.arr []) (some 0) = none ∧
    loadPlaylistFromStorage ⟨some "\x7b", some "0", none⟩ (Json.arr []) (some 0) ≠
      some (Json.arr [], some 0) := by
  have h0 : loadPlaylistFromStorage ⟨some "\x7b", some "0", none⟩ (Json.arr []) (some 0)
      = none := rfl
  exact ⟨h0, by rw [h0]; exact fun h => Option.noConfusion h⟩

/-- C1 (amended): `restore()` on a missing (or empty-string) stored record
yields the empty playlist and cursor 0; but on a malformed record the
`JSON.parse` error propagates out of `restore()` uncaught — the store is
NOT reset to empty on a parse failure. -/
theorem c1_restore_missing_vs_malformed (st : Storage) :
    (st.youtubePlaylist = none →
      loadPlaylistFromStorage st (Json.arr []) (some 0) = some (Json.arr [], some 0)) ∧
    (∀ s, st.youtubePlaylist = some s → s ≠ "" → jsonParse s = none →
      loadPlaylistFromStorage st (Json.arr []) (some 0) = none) := by
  constructor
  · intro h
    unfold loadPlaylistFromStorage
    rw [h]
  · intro s hs hne hp
    unfold loadPlaylistFromStorage
    rw [hs]
    simp only [hne, if_false, hp]

/-- C1 witness: a missing record restores to `([], 0)`; the malformed
record `" ["` raises. -/
theorem c1_restore_missing_vs_malformed_witness :
    loadPlaylistFromStorage ⟨none, none, none⟩ (Json.arr []) (some 0)
      = some (Json.arr [], some 0) ∧
    loadPlaylistFromStorage ⟨some " [", none, none⟩ (Json.arr []) (some 0) = none :=
  ⟨(c1_restore_missing_vs_malformed ⟨none, none, none⟩).1 rfl,
   (c1_restore_missing_vs_malformed ⟨some " [", none, none⟩).2 " ["
     rfl (by decide) rfl⟩

/-- C2 counterexample: the input `not-a-video` is 11 characters long, so
`extractVideoId` RESOLVES it (to itself) via the bare-identifier branch,
and `addVideoToPlaylist` appends it to the empty playlist and issues a
load — refuting "input `not-a-video` fails resolution and leaves the
playlist unchanged". -/
theorem c2_not_a_video_resolves_counterexample :
    extractVideoId "not-a-video" = some "not-a-video" ∧
    (addVideoToPlaylist "not-a-video" initCtrl).1.playlist =
      [{ id := "not-a-video", title := "Loading...", author := "Loading..." }] ∧
    (addVideoToPlaylist "not-a-video" initCtrl).2 = some "not-a-video" := by
  exact ⟨rfl, rfl, rfl⟩

/-- C2 (amended): `https://youtu.be/dQw4w9WgXcQ` and the bare identifier
both resolve to `dQw4w9WgXcQ` (as do the watch/embed URL shapes), and a
failed resolution mutates nothing; but the fallback branch accepts EVERY
11-character input as a raw identifier, so `not-a-video` resolves to
itself and is appended rather than rejected. -/
theorem c2_resolution_amended (url input : String) (s : CtrlState) :
    extractVideoId "https://youtu.be/dQw4w9WgXcQ" = some "dQw4w9WgXcQ" ∧
    extractVideoId "dQw4w9WgXcQ" = some "dQw4w9WgXcQ" ∧
    extractVideoId "https://www.youtube.com/watch?v=dQw4w9WgXcQ" = some "dQw4w9WgXcQ" ∧
    extractVideoId "not-a-video" = some "not-a-video" ∧
    (url.length = 11 → (extractVideoId url).isSome = true) ∧
    (extractVideoId (jsTrim input) = none → addVideoToPlaylist input s = (s, none)) := by
  refine ⟨rfl, rfl, rfl, rfl, ?_, ?_⟩
  · intro h
    unfold extractVideoId
    cases hm : (findLastMarker url.toList).map group2 with
    | none => simp [h]
    | some g2 =>
      by_cases hg : g2.length = 11
      · simp [hg]
      · simp [hg, h]
  · intro h
    unfold addVideoToPlaylist
    by_cases he : jsTrim input = ""
    · simp [he]
    · simp only [he, if_false, h]

/-- C2 amended witness: the 11-character input `abcdefghijk` resolves, and
the unresolvable input `??` leaves the playlist unchanged. -/
theorem c2_resolution_amended_witness :
    (extractVideoId "abcdefghijk").isSome = true ∧
    addVideoToPlaylist "??" initCtrl = (initCtrl, none) :=
  ⟨(c2_resolution_amended "abcdefghijk" "" initCtrl).2.2.2.2.1 rfl,
   (c2_resolution_amended "" "??" initCtrl).2.2.2.2.2 rfl⟩

/-! ### Cursor validity (C3) -/

/-- The cursor invariant: a valid index whenever the playlist is non-empty
(and the startup value 0 when it is empty, which is what every reachable
empty state has). -/
def goodCursor (s : CtrlState) : Prop :=
  (s.playlist = [] → s.currentIndex = 0) ∧
  (s.playlist ≠ [] → 0 ≤ s.currentIndex ∧ s.currentIndex < (s.playlist.length : Int))

/-- The function `loadVideo` never changes the playlist. -/
theorem loadVideo_playlist (i : Int) (s : CtrlState) :
    ((loadVideo i s).1).playlist = s.playlist := by
  unfold loadVideo
  split <;> rfl

/-- The function `loadVideo` preserves the cursor invariant. -/
theorem goodCursor_loadVideo (i : Int) (s : CtrlState) (h : goodCursor s) :
    goodCursor (loadVideo i s).1 := by
  unfold loadVideo
  split
  · rename_i hin
    refine ⟨fun hp => ?_, fun _ => ⟨hin.1, hin.2⟩⟩
    exfalso
    have := hin.2
    rw [show s.playlist = [] from hp] at this
    simp at this
    omega
  · exact h

/-- The function `playNextVideo` on a non-empty playlist leaves the playlist unchanged
and moves the cursor to `(currentIndex + 1) % length`. -/
theorem playNextVideo_eq (s : CtrlState) (h : s.playlist.length ≠ 0) :
    ((playNextVideo s).1).playlist = s.playlist ∧
    ((playNextVideo s).1).currentIndex
      = jsRem (s.currentIndex + 1) (s.playlist.length : Int) := by
  unfold playNextVideo
  simp only [h, if_false]
  refine ⟨loadVideo_playlist _ _, ?_⟩
  unfold loadVideo
  split <;> rfl

/-- The function `playPreviousVideo` on a non-empty playlist leaves the playlist
unchanged and moves the cursor to `(currentIndex - 1 + length) % length`. -/
theorem playPreviousVideo_eq (s : CtrlState) (h : s.playlist.length ≠ 0) :
    ((playPreviousVideo s).1).playlist = s.playlist ∧
    ((playPreviousVideo s).1).currentIndex
      = jsRem (s.currentIndex - 1 + (s.playlist.length : Int)) (s.playlist.length : Int) := by
  unfold playPreviousVideo
  simp only [h, if_false]
  refine ⟨loadVideo_playlist _ _, ?_⟩
  unfold loadVideo
  split <;> rfl

/-- The function `playNextVideo` preserves the cursor invariant. -/
theorem goodCursor_playNextVideo (s : CtrlState) (h : goodCursor s) :
    goodCursor (playNextVideo s).1 := by
  by_cases hl : s.playlist.length = 0
  · unfold playNextVideo
    simp only [hl, if_true]
    exact h
  · have hne : s.playlist ≠ [] := by
      intro he
      rw [he] at hl
      exact hl rfl
    have hb := h.2 hne
    have hpos : (0 : Int) < (s.playlist.length : Int) := by
      have : 0 < s.playlist.length := Nat.pos_of_ne_zero hl
      exact_mod_cast this
    have he := playNextVideo_eq s hl
    refine ⟨fun hp => ?_, fun _ => ?_⟩
    · rw [he.1] at hp
      exact absurd hp hne
    · rw [he.1, he.2]
      unfold jsRem
      exact ⟨Int.tmod_nonneg _ (by omega), Int.tmod_lt_of_pos _ hpos⟩

/-- The function `playPreviousVideo` preserves the cursor invariant. -/
theorem goodCursor_playPreviousVideo (s : CtrlState) (h : goodCursor s) :
    goodCursor (playPreviousVideo s).1 := by
  by_cases hl : s.playlist.length = 0
  · unfold playPreviousVideo
    simp only [hl, if_true]
    exact h
  · have hne : s.playlist ≠ [] := by
      intro he
      rw [he] at hl
      exact hl rfl
    have hb := h.2 hne
    have hpos : (0 : Int) < (s.playlist.length : Int) := by
      have : 0 < s.playlist.length := Nat.pos_of_ne_zero hl
      exact_mod_cast this
    have he := playPreviousVideo_eq s hl
    refine ⟨fun hp => ?_, fun _ => ?_⟩
    · rw [he.1] at hp
      exact absurd hp hne
    · rw [he.1, he.2]
      unfold jsRem
      exact ⟨Int.tmod_nonneg _ (by omega), Int.tmod_lt_of_pos _ hpos⟩

/-- The function `addToPlaylist` preserves the cursor invariant. -/
theorem goodCursor_addToPlaylist (v t a : String) (s : CtrlState) (h : goodCursor s) :
    goodCursor (addToPlaylist v t a s) := by
  unfold addToPlaylist goodCursor
  dsimp only
  refine ⟨fun hp => ?_, fun _ => ?_⟩
  · exfalso
    simp at hp
  · have hlen : ((s.playlist ++ [({ id := v, title := t, author := a } : Track)]).length : Int)
        = (s.playlist.length : Int) + 1 := by
      simp
    rw [hlen]
    by_cases he : s.playlist = []
    · have h0 := h.1 he
      rw [h0, he]
      norm_num
    · have hb := h.2 he
      omega

/-- The function `addVideoToPlaylist` preserves the cursor invariant. -/
theorem goodCursor_addVideoToPlaylist (input : String) (s : CtrlState) (h : goodCursor s) :
    goodCursor (addVideoToPlaylist input s).1 := by
  unfold addVideoToPlaylist
  dsimp only
  split
  · exact h
  · cases hx : extractVideoId (jsTrim input) with
    | none => exact h
    | some vid =>
      dsimp only
      split
      · exact goodCursor_loadVideo 0 _ (goodCursor_addToPlaylist vid _ _ s h)
      · exact goodCursor_addToPlaylist vid _ _ s h

/-- C3 counterexample: applying the bare snapshot
`{title: "T", author: "A", playlist: [one track], currentIndex: 5}` to a
fresh Display replica leaves `currentIndex = 5` with a playlist of length
1 — the snapshot cursor is installed with no bounds check, so the claimed
invariant fails after snapshot application. -/
theorem c3_snapshot_cursor_counterexample :
    (updateSongInfo
      { command := none, params := none, value := none,
        title := some "T", author := some "A",
        playlist := some [{ id := "v", title := "T", author := "A" }],
        currentIndex := some 5 }
      { songInfo := "", playlist := [], currentIndex := 0, volumeDisplay := none }).playlist
      ≠ [] ∧
    ¬ ((updateSongInfo
      { command := none, params := none, value := none,
        title := some "T", author := some "A",
        playlist := some [{ id := "v", title := "T", author := "A" }],
        currentIndex := some 5 }
      { songInfo := "", playlist := [], currentIndex := 0, volumeDisplay := none }).currentIndex
      < ((updateSongInfo
      { command := none, params := none, value := none,
        title := some "T", author := some "A",
        playlist := some [{ id := "v", title := "T", author := "A" }],
        currentIndex := some 5 }
      { songInfo := "", playlist := [], currentIndex := 0, volumeDisplay := none }).playlist.length : Int)) := by
  decide

/-- C3 (amended): the Controller operations `add`, `load`, `next` and
`previous` all preserve cursor validity; but `restore()` and Display
snapshot application install the stored/received cursor without any bounds
check, so they can leave `currentIndex` out of range (see the
counterexample). -/
theorem c3_cursor_invariant_amended (s : CtrlState) (i : Int) (v t a input : String)
    (h : goodCursor s) :
    goodCursor (loadVideo i s).1 ∧
    goodCursor (playNextVideo s).1 ∧
    goodCursor (playPreviousVideo s).1 ∧
    goodCursor (addToPlaylist v t a s) ∧
    goodCursor (addVideoToPlaylist input s).1 :=
  ⟨goodCursor_loadVideo i s h, goodCursor_playNextVideo s h,
   goodCursor_playPreviousVideo s h, goodCursor_addToPlaylist v t a s h,
   goodCursor_addVideoToPlaylist input s h⟩

/-- C3 amended witness: the invariant is preserved from a concrete valid
two-track state through each operation. -/
theorem c3_cursor_invariant_amended_witness :
    goodCursor (loadVideo 1
      ⟨[⟨"a", "A", "X"⟩, ⟨"b", "B", "Y"⟩], 0, "a"⟩).1 ∧
    goodCursor (playNextVideo ⟨[⟨"a", "A", "X"⟩, ⟨"b", "B", "Y"⟩], 0, "a"⟩).1 := by
  have hg : goodCursor ⟨[⟨"a", "A", "X"⟩, ⟨"b", "B", "Y"⟩], 0, "a"⟩ := by
    unfold goodCursor
    exact ⟨fun hp => List.noConfusion hp, fun _ => by norm_num⟩
  exact ⟨(c3_cursor_invariant_amended ⟨[⟨"a", "A", "X"⟩, ⟨"b", "B", "Y"⟩], 0, "a"⟩
            1 "v" "t" "a" "" hg).1,
         (c3_cursor_invariant_amended ⟨[⟨"a", "A", "X"⟩, ⟨"b", "B", "Y"⟩], 0, "a"⟩
            1 "v" "t" "a" "" hg).2.1⟩

/-- C6: snapshot application is idempotent — applying any wire message
(tagged `nowPlaying` or bare snapshot form alike) twice to a Display
replica leaves exactly the state of applying it once: every branch of
`updateSongInfo` is a pure overwrite. -/
theorem c6_snapshot_idempotent (m : WireMsg) (s : DispState) :
    updateSongInfo m (updateSongInfo m s) = updateSongInfo m s := by
  by_cases h1 : m.command = some "pong"
  · simp [updateSongInfo, h1]
  · by_cases h2 : m.command = some "volumeUpdate" ∧ m.value.isSome
    · simp [updateSongInfo, h1, h2]
    · cases hp : npParams m with
      | some p =>
        cases hpl : p.playlist with
        | some pl =>
          cases hci : p.currentIndex with
          | some ci => simp [updateSongInfo, h1, h2, hp, hpl, hci]
          | none => simp [updateSongInfo, h1, h2, hp, hpl, hci]
        | none => simp [updateSongInfo, h1, h2, hp, hpl]
      | none =>
        by_cases h3 : truthyStr m.title ∧ truthyStr m.author
        · by_cases h4 : m.playlist.isSome ∧ m.currentIndex.isSome
          · simp [updateSongInfo, h1, h2, hp, h3, h4]
          · simp [updateSongInfo, h1, h2, hp, h3, h4]
        · simp [updateSongInfo, h1, h2, hp, h3]

/-- Iterating `playNextVideo` from a valid cursor: the playlist never
changes and after `k` steps the cursor is `(currentIndex + k) % length`. -/
theorem iterate_playNextVideo (s : CtrlState) (h1 : s.playlist ≠ [])
    (h2 : 0 ≤ s.currentIndex) (h3 : s.currentIndex < (s.playlist.length : Int)) :
    ∀ k : Nat, ((fun st => (playNextVideo st).1)^[k] s).playlist = s.playlist ∧
      ((fun st => (playNextVideo st).1)^[k] s).currentIndex
        = (s.currentIndex + k) % (s.playlist.length : Int) := by
  intro k
  induction k with
  | zero =>
    refine ⟨rfl, ?_⟩
    simpa using (Int.emod_eq_of_lt h2 h3).symm
  | succ k ih =>
    have hlen : s.playlist.length ≠ 0 := by
      intro h0
      exact h1 (List.length_eq_zero.mp h0)
    have hpos : (0 : Int) < (s.playlist.length : Int) := by
      have := Nat.pos_of_ne_zero hlen
      exact_mod_cast this
    rw [Function.iterate_succ_apply']
    have hplk : ((fun st => (playNextVideo st).1)^[k] s).playlist = s.playlist := ih.1
    have hlk : ((fun st => (playNextVideo st).1)^[k] s).playlist.length ≠ 0 := by
      rw [hplk]
      exact hlen
    have he := playNextVideo_eq ((fun st => (playNextVideo st).1)^[k] s) hlk
    refine ⟨by rw [he.1, hplk], ?_⟩
    rw [he.2, hplk, ih.2]
    unfold jsRem
    have hnn : (0 : Int) ≤ (s.currentIndex + k) % (s.playlist.length : Int) :=
      Int.emod_nonneg _ (by omega)
    rw [Int.tmod_eq_emod (by omega) (by omega), Int.emod_add_emod]
    congr 1
    push_cast
    ring

/-- C7: on every non-empty playlist with a valid cursor, `next()` applied
`length` times returns the cursor to its original value; on a 3-track
playlist `next()` from cursor 2 wraps to 0 and `previous()` from cursor 0
wraps to 2. -/
theorem c7_next_wraparound (s : CtrlState) (t1 t2 t3 : Track)
    (h1 : s.playlist ≠ []) (h2 : 0 ≤ s.currentIndex)
    (h3 : s.currentIndex < (s.playlist.length : Int)) :
    ((fun st => (playNextVideo st).1)^[s.playlist.length] s).currentIndex = s.currentIndex ∧
    ((playNextVideo ⟨[t1, t2, t3], 2, ""⟩).1).currentIndex = 0 ∧
    ((playPreviousVideo ⟨[t1, t2, t3], 0, ""⟩).1).currentIndex = 2 := by
  refine ⟨?_, ?_, ?_⟩
  · rw [(iterate_playNextVideo s h1 h2 h3 s.playlist.length).2]
    have hself : (s.currentIndex + (s.playlist.length : Int)) % (s.playlist.length : Int)
        = s.currentIndex % (s.playlist.length : Int) := by
      have := Int.add_mul_emod_self_left s.currentIndex (s.playlist.length : Int) 1
      rwa [mul_one] at this
    rw [hself]
    exact Int.emod_eq_of_lt h2 h3
  · rw [(playNextVideo_eq ⟨[t1, t2, t3], 2, ""⟩ (by simp)).2]
    dsimp only
    simp only [List.length_cons, List.length_nil]
    decide
  · rw [(playPreviousVideo_eq ⟨[t1, t2, t3], 0, ""⟩ (by simp)).2]
    dsimp only
    simp only [List.length_cons, List.length_nil]
    decide

/-- C7 witness: two `next()` steps on a concrete 2-track playlist return
the cursor to 1, and the concrete 3-track wraparounds. -/
theorem c7_next_wraparound_witness :
    ((fun st => (playNextVideo st).1)^[
        ((⟨[⟨"a", "A", "X"⟩, ⟨"b", "B", "Y"⟩], 1, ""⟩ : CtrlState)).playlist.length]
      (⟨[⟨"a", "A", "X"⟩, ⟨"b", "B", "Y"⟩], 1, ""⟩ : CtrlState)).currentIndex = 1 ∧
    ((playNextVideo ⟨[⟨"a", "A", "X"⟩, ⟨"b", "B", "Y"⟩, ⟨"c", "C", "Z"⟩], 2, ""⟩).1).currentIndex
      = 0 :=
  ⟨(c7_next_wraparound ⟨[⟨"a", "A", "X"⟩, ⟨"b", "B", "Y"⟩], 1, ""⟩
      ⟨"a", "A", "X"⟩ ⟨"b", "B", "Y"⟩ ⟨"c", "C", "Z"⟩
      (by simp) (by norm_num) (by norm_num)).1,
   (c7_next_wraparound ⟨[⟨"x", "A", "X"⟩], 0, ""⟩
      ⟨"a", "A", "X"⟩ ⟨"b", "B", "Y"⟩ ⟨"c", "C", "Z"⟩
      (by simp) (by norm_num) (by norm_num)).2.1⟩

/-- The function `playNextVideo` from a valid cursor always issues a load. -/
theorem playNextVideo_snd_isSome (s : CtrlState) (hl : s.playlist.length ≠ 0)
    (h2 : 0 ≤ s.currentIndex) :
    ((playNextVideo s).2).isSome = true := by
  unfold playNextVideo
  simp only [hl, if_false]
  have hpos : (0 : Int) < (s.playlist.length : Int) := by
    have := Nat.pos_of_ne_zero hl
    exact_mod_cast this
  have hin : 0 ≤ jsRem (s.currentIndex + 1) (s.playlist.length : Int) ∧
      jsRem (s.currentIndex + 1) (s.playlist.length : Int) < (s.playlist.length : Int) := by
    unfold jsRem
    exact ⟨Int.tmod_nonneg _ (by omega), Int.tmod_lt_of_pos _ hpos⟩
  unfold loadVideo
  split
  · rfl
  · rename_i hcon
    exact absurd ⟨hin.1, hin.2⟩ hcon

/-- C8: when the capability reports `ended`, the Controller immediately
advances with modulo wraparound — on an empty playlist nothing is loaded;
from a valid cursor the new cursor is `(currentIndex + 1) % length` and a
load is issued; on a single-entry playlist the same entry is reloaded
(repeat-one fallback). -/
theorem c8_ended_advances (s : CtrlState) (t : Track) :
    (s.playlist = [] → onPlayerStateChange .ended s = (s, none)) ∧
    (0 ≤ s.currentIndex → s.currentIndex < (s.playlist.length : Int) →
      ((onPlayerStateChange .ended s).1).currentIndex
          = (s.currentIndex + 1) % (s.playlist.length : Int) ∧
        ((onPlayerStateChange .ended s).2).isSome = true) ∧
    (s.playlist = [t] → s.currentIndex = 0 →
      onPlayerStateChange .ended s
        = ({ s with currentIndex := 0, currentVideoId := t.id }, some t.id)) := by
  refine ⟨?_, ?_, ?_⟩
  · intro hp
    unfold onPlayerStateChange playNextVideo
    simp [hp]
  · intro h2 h3
    have hl : s.playlist.length ≠ 0 := by
      intro h0
      rw [h0] at h3
      omega
    constructor
    · show ((playNextVideo s).1).currentIndex = _
      rw [(playNextVideo_eq s hl).2]
      unfold jsRem
      exact Int.tmod_eq_emod (by omega) (by omega)
    · exact playNextVideo_snd_isSome s hl h2
  · intro hp hc
    obtain ⟨pl, ci, cv⟩ := s
    dsimp only at hp hc
    subst hp
    subst hc
    show playNextVideo _ = _
    unfold playNextVideo loadVideo
    norm_num [jsRem]

/-- C8 witness: from the single-entry playlist `[t]` at cursor 0, `ended`
reloads the same entry; from a valid 2-track state it advances to 1 and
issues a load. -/
theorem c8_ended_advances_witness :
    onPlayerStateChange .ended (⟨[⟨"a", "A", "X"⟩], 0, "a"⟩ : CtrlState)
      = (⟨[⟨"a", "A", "X"⟩], 0, "a"⟩, some "a") ∧
    ((onPlayerStateChange .ended (⟨[⟨"a", "A", "X"⟩, ⟨"b", "B", "Y"⟩], 0, "a"⟩ : CtrlState)).1).currentIndex
      = 1 := by
  constructor
  · exact (c8_ended_advances ⟨[⟨"a", "A", "X"⟩], 0, "a"⟩ ⟨"a", "A", "X"⟩).2.2 rfl rfl
  · have h := ((c8_ended_advances ⟨[⟨"a", "A", "X"⟩, ⟨"b", "B", "Y"⟩], 0, "a"⟩
        ⟨"a", "A", "X"⟩).2.1 (by norm_num) (by norm_num)).1
    rw [h]
    rfl

/-! ### The post-open request timer (C9) -/

/-- A rendered marquee text can never coincide with the connected
placeholder (they differ in their first character). -/
theorem nowPlayingText_ne_connected (t a : String) :
    nowPlayingText t a ≠ connectedText := by
  intro h
  have hd := congrArg String.data h
  simp only [nowPlayingText, connectedText, String.data_append] at hd
  simp at hd

/-- A snapshot-rendering message overwrites the `song-info` text with a
`Now Playing:` marquee, so the text no longer equals the connected
placeholder. -/
theorem updateSongInfo_renders (m : WireMsg) (s : DispState)
    (h : rendersSnapshot m = true) :
    (updateSongInfo m s).songInfo ≠ connectedText := by
  simp only [rendersSnapshot, decide_eq_true_eq] at h
  obtain ⟨hn1, hn2, h3⟩ := h
  unfold updateSongInfo
  rw [if_neg hn1, if_neg hn2]
  cases hp : npParams m with
  | some p =>
    obtain ⟨pt, pa, ppl, pci⟩ := p
    cases ppl <;> exact nowPlayingText_ne_connected _ _
  | none =>
    cases h3 with
    | inl h3 =>
      rw [hp] at h3
      simp at h3
    | inr h3 =>
      rw [if_pos h3]
      by_cases h4 : m.playlist.isSome ∧ m.currentIndex.isSome
      · rw [if_pos h4]
        exact nowPlayingText_ne_connected _ _
      · rw [if_neg h4]
        exact nowPlayingText_ne_connected _ _

/-- A non-rendering message never touches the `song-info` text. -/
theorem updateSongInfo_keeps (m : WireMsg) (s : DispState)
    (h : rendersSnapshot m = false) :
    (updateSongInfo m s).songInfo = s.songInfo := by
  by_cases h1 : m.command = some "pong"
  · simp [updateSongInfo, h1]
  · by_cases h2 : m.command = some "volumeUpdate" ∧ m.value.isSome
    · simp [updateSongInfo, h1, h2]
    · have h3 : ¬ ((npParams m).isSome = true ∨
          (truthyStr m.title = true ∧ truthyStr m.author = true)) := by
        intro hc
        have hr : rendersSnapshot m = true := by
          simp only [rendersSnapshot, decide_eq_true_eq]
          exact ⟨h1, by simpa using h2, by simpa using hc⟩
        rw [h] at hr
        cases hr
      have hpn : npParams m = none := by
        cases hx : npParams m with
        | none => rfl
        | some p => exact absurd (Or.inl (by rw [hx]; rfl)) h3
      have ht : ¬ (truthyStr m.title = true ∧ truthyStr m.author = true) :=
        fun hc => h3 (Or.inr hc)
      unfold updateSongInfo
      rw [if_neg h1, if_neg h2]
      simp only [hpn]
      rw [if_neg ht]

/-- The `song-info` text after a batch of messages still equals the
connected placeholder iff it did before and no message in the batch
rendered a snapshot. -/
theorem processMsgs_connected (ms : List WireMsg) :
    ∀ s : DispState, (processMsgs ms s).songInfo = connectedText ↔
      (s.songInfo = connectedText ∧ ms.any rendersSnapshot = false) := by
  induction ms with
  | nil =>
    intro s
    simp [processMsgs]
  | cons m ms ih =>
    intro s
    have hstep : processMsgs (m :: ms) s = processMsgs ms (updateSongInfo m s) := rfl
    rw [hstep]
    cases hr : rendersSnapshot m with
    | false =>
      rw [ih (updateSongInfo m s), updateSongInfo_keeps m s hr]
      simp [hr]
    | true =>
      rw [ih (updateSongInfo m s)]
      have hne := updateSongInfo_renders m s hr
      simp [hr, hne]

/-- C9: on channel open the Display sends exactly one
`requestCurrentSongInfo` and arms the one-shot 2-second timer; when the
timer fires (socket still open) it re-sends exactly one follow-up request
iff none of the messages received in between rendered a snapshot, and
sends nothing if one did. -/
theorem c9_open_request_timer (c : ConnState) (ms : List WireMsg) :
    (onSocketOpen c).2 = ["requestCurrentSongInfo"] ∧
    songInfoTimer ⟨processMsgs ms ((onSocketOpen c).1).disp, true⟩
      = (if ms.any rendersSnapshot then [] else ["requestCurrentSongInfo"]) := by
  refine ⟨rfl, ?_⟩
  have hopen : (((onSocketOpen c).1).disp).songInfo = connectedText := rfl
  by_cases h : ms.any rendersSnapshot = true
  · rw [if_pos h]
    unfold songInfoTimer
    rw [if_neg]
    intro hcon
    have hiff := (processMsgs_connected ms ((onSocketOpen c).1).disp).mp hcon.1
    rw [hiff.2] at h
    cases h
  · rw [if_neg h]
    unfold songInfoTimer
    rw [if_pos]
    exact ⟨(processMsgs_connected ms ((onSocketOpen c).1).disp).mpr
      ⟨hopen, by simpa using h⟩, rfl⟩

/-- C10: adding a resolvable video through the control-surface input to a
previously EMPTY playlist immediately loads the new track at index 0 (the
issued load starts playback, no separate play command); and
`addVideoToPlaylistById` always issues `loadVideo(0)` right after
appending, whatever the playlist held before. -/
theorem c10_first_add_autoplays (input vid : String) (s : CtrlState)
    (h1 : s.playlist = []) (h2 : extractVideoId (jsTrim input) = some vid) :
    addVideoToPlaylist input s
      = ({ playlist := [{ id := vid, title := "Loading...", author := "Loading..." }],
           currentIndex := 0, currentVideoId := vid }, some vid) ∧
    ∀ videoId : String, ∀ st : CtrlState,
      ((addVideoToPlaylistById videoId st).1).currentIndex = 0 ∧
      ((addVideoToPlaylistById videoId st).2).isSome = true ∧
      (addVideoToPlaylistById videoId st).2
        = (((addVideoToPlaylistById videoId st).1).playlist.get? 0).map Track.id := by
  constructor
  · have hne : jsTrim input ≠ "" := by
      intro he
      rw [he] at h2
      exact Option.noConfusion h2
    unfold addVideoToPlaylist
    dsimp only
    rw [if_neg hne]
    simp only [h2]
    unfold addToPlaylist loadVideo
    simp [h1]
  · intro videoId st
    unfold addVideoToPlaylistById addToPlaylist loadVideo
    cases hpl : st.playlist with
    | nil => simp
    | cons hd tl =>
      have hpos : (0 : Int) < (tl.length : Int) + 1 + 1 := by omega
      simp [hpos]

/-- C10 witness: a concrete first add (`dQw4w9WgXcQ` into an empty
playlist) loads index 0 immediately, and a concrete `addVideoToPlaylistById`
on a non-empty playlist also loads index 0. -/
theorem c10_first_add_autoplays_witness :
    addVideoToPlaylist "dQw4w9WgXcQ" initCtrl
      = ({ playlist := [{ id := "dQw4w9WgXcQ", title := "Loading...", author := "Loading..." }],
           currentIndex := 0, currentVideoId := "dQw4w9WgXcQ" }, some "dQw4w9WgXcQ") ∧
    ((addVideoToPlaylistById "xyz" ⟨[⟨"a", "A", "X"⟩], 0, "a"⟩).1).currentIndex = 0 :=
  ⟨(c10_first_add_autoplays "dQw4w9WgXcQ" "dQw4w9WgXcQ" initCtrl rfl rfl).1,
   ((c10_first_add_autoplays "dQw4w9WgXcQ" "dQw4w9WgXcQ" initCtrl rfl rfl).2
      "xyz" ⟨[⟨"a", "A", "X"⟩], 0, "a"⟩).1⟩

end HTMLyoutubeMusic
